import Mathlib

/-!
Verification development for the election-station geocoding batch script
(`geocoding_script.py`).  The Python program is shallowly embedded below:

* a pandas row becomes a `Record` with explicitly optional fields (a CSV
  cell holding NaN/None is `none`); a column that is absent from the file
  is identified, for the batch engine, with the column being present and
  all-null, which is behaviourally equivalent for every operation the
  engine performs (`df[col] = None` on a missing column, and the two
  branches of the `search_address` derivation);
* `geocode_address` is embedded over an abstract provider response
  (`ApiResponse`); the network itself is a pure function supplied as a
  parameter, and `None` returned by the Python function (its blanket
  `except` branches) is `Option.none`, the transport-error sentinel;
* coordinates are abstracted as integers: no claim depends on coordinate
  arithmetic, only on nullness and equality of the stored values;
* `process_station_data`'s `ValueError` range check becomes
  `Except RunError`; the per-batch checkpoint writes do not change the
  in-memory dataframe and are therefore not part of the state;
* `check_file_status` is embedded over a `CsvFile`, which keeps the
  column-presence facts (`hasLat`, `hasLng`, `hasStatus`) that the pandas
  code observes; its `except`-wrapped failure result (`None`, e.g. the
  `KeyError` raised when `geocoding_status` is accessed while absent)
  is `Option.none`.
-/

namespace Station66

/-- One row of the dataset.  Every field of a pandas cell is optional:
`none` models NaN/None. -/
structure Record where
  location : Option String
  subdistrict : Option String
  search_address : Option String
  formatted_address : Option String
  latitude : Option Int
  longitude : Option Int
  place_id : Option String
  geocoding_status : Option String
  geocoding_types : Option String
deriving DecidableEq, Repr

/-- The first-ranked entry of `data['results']` in a provider response. -/
structure ApiResult where
  formatted_address : String
  lat : Int
  lng : Int
  place_id : String
  types : List String
deriving DecidableEq, Repr

/-- A provider response as observed by `geocode_address`: either the HTTP
call and JSON decoding succeeded (`success status results`), or a
`requests` exception / any other exception was raised (`failure`). -/
inductive ApiResponse where
  | success (status : String) (results : List ApiResult)
  | failure
deriving DecidableEq, Repr

/-- The dictionary returned by `geocode_address` when it does not return
`None`: six keys, each possibly null. -/
structure GeoResult where
  formatted_address : Option String
  latitude : Option Int
  longitude : Option Int
  place_id : Option String
  types : Option (List String)
  status : String
deriving DecidableEq, Repr

/-- Embedding of `GoogleMapsGeocoder.geocode_address` (lines 31-81): on a
successful response with `status == 'OK'` and a nonempty result list it
returns the first result's fields; on any other successful response it
returns the all-null dictionary carrying the provider status; on an
exception it returns `None` (here `none`). -/
def geocode_address (resp : ApiResponse) : Option GeoResult :=
  match resp with
  | .failure => none
  | .success status results =>
    match results with
    | [] =>
      some { formatted_address := none, latitude := none, longitude := none,
             place_id := none, types := none, status := status }
    | r :: _ =>
      if status = "OK" then
        some { formatted_address := some r.formatted_address,
               latitude := some r.lat, longitude := some r.lng,
               place_id := some r.place_id, types := some r.types,
               status := status }
      else
        some { formatted_address := none, latitude := none, longitude := none,
               place_id := none, types := none, status := status }

/-- Pandas string concatenation `location + " " + subdistrict`:
NaN on either side propagates. -/
def optConcat (a b : Option String) : Option String :=
  match a, b with
  | some x, some y => some (x ++ " " ++ y)
  | _, _ => none

/-- Embedding of lines 121-126: a row's `search_address` is filled with
`location + " " + subdistrict` when it is null, and left alone otherwise.
Both source branches (creating the column, or filling its null cells)
reduce to this per-row function. -/
def fillSearch (r : Record) : Record :=
  if r.search_address = none then
    { r with search_address := optConcat r.location r.subdistrict }
  else r

/-- Embedding of the skip condition of lines 144-146: the row already has
geocoding data, i.e. latitude and longitude are non-null and the status is
not the `'ERROR'` sentinel (a null status compares unequal to `'ERROR'`,
as it does in pandas). -/
def isComplete (r : Record) : Bool :=
  r.latitude.isSome && r.longitude.isSome &&
    !(r.geocoding_status == some "ERROR")

/-- Embedding of `', '.join(result['types']) if result['types'] else None`
(line 161): `None` and the empty list are falsy. -/
def joinTypes : Option (List String) → Option String
  | none => none
  | some [] => none
  | some (t :: ts) => some (String.intercalate ", " (t :: ts))

/-- Embedding of lines 155-166: writing one provider outcome into a row.
A non-`None` result sets all six derived fields (line 156-161); a `None`
result (transport error) sets only `geocoding_status := 'ERROR'`
(line 165). -/
def applyOutcome (r : Record) (o : Option GeoResult) : Record :=
  match o with
  | some g =>
    { r with formatted_address := g.formatted_address,
             latitude := g.latitude,
             longitude := g.longitude,
             place_id := g.place_id,
             geocoding_status := some g.status,
             geocoding_types := joinTypes g.types }
  | none => { r with geocoding_status := some "ERROR" }

/-- The combined effect of visiting one row in the loop body
(lines 142-168), as a pure function of the row: skip when complete,
otherwise call the provider on the row's `search_address` and apply the
outcome. -/
def rowStep (g : Option String → Option GeoResult) (r : Record) : Record :=
  if isComplete r then r else applyOutcome r (g r.search_address)

/-- Mutable state of the batch loop: the dataframe, the
`processed_count` accumulator, and the number of provider calls made. -/
structure EngineState where
  df : List Record
  processed : Nat
  calls : Nat
deriving DecidableEq, Repr

/-- Embedding of the inner loop body for one index (lines 142-168). -/
def processRow (g : Option String → Option GeoResult)
    (st : EngineState) (idx : Nat) : EngineState :=
  match st.df[idx]? with
  | none => st
  | some r =>
    if isComplete r then st
    else
      { df := st.df.set idx (applyOutcome r (g r.search_address)),
        processed := st.processed + 1,
        calls := st.calls + 1 }

/-- The inner loop `for idx in range(i, end_idx)` run over an explicit
index list. -/
def runRows (g : Option String → Option GeoResult)
    (st : EngineState) (l : List Nat) : EngineState :=
  l.foldl (processRow g) st

/-- Fuel-driven unfolding of `range(start_row, end_row, batch_size)`
(line 137): each iteration yields the batch `[i, min (i+batch_size) e)`.
Fuel `e - s` suffices for any positive step. -/
def batchListAux : Nat → Nat → Nat → Nat → List (Nat × Nat)
  | 0, _, _, _ => []
  | f + 1, s, e, step =>
    if s < e then (s, min (s + step) e) :: batchListAux f (s + step) e step
    else []

/-- The batches `(i, end_idx)` the loop of lines 137-138 iterates over. -/
def batchList (s e step : Nat) : List (Nat × Nat) :=
  batchListAux (e - s) s e step

/-- The full batch loop of lines 136-171 (the per-batch checkpoint write
of lines 173-181 does not change the dataframe). -/
def runBatches (g : Option String → Option GeoResult)
    (st : EngineState) (s e step : Nat) : EngineState :=
  (batchList s e step).foldl
    (fun acc p => runRows g acc (List.range' p.1 (p.2 - p.1))) st

/-- Result of a completed run: the final dataframe and the summary counts
of lines 207-217. -/
structure RunResult where
  df : List Record
  processed_count : Nat
  success_count : Nat
  error_count : Nat
  calls : Nat
deriving DecidableEq, Repr

/-- The body of `process_station_data` after range validation succeeds,
with `s'` and `e'` the validated bounds as naturals: derive
`search_address` (lines 121-126), add the missing derived columns (a
no-op on `Record`s, lines 129-131), run the batch loop, and compute the
summary over `df.iloc[start_row:end_row]` (lines 207-210). -/
def runCore (g : Option String → Option GeoResult) (df : List Record)
    (bs s' e' : Nat) : RunResult :=
  let st := runBatches g { df := df.map fillSearch, processed := 0, calls := 0 } s' e' bs
  let slice := (st.df.drop s').take (e' - s')
  { df := st.df,
    processed_count := st.processed,
    success_count := slice.countP (fun r => r.geocoding_status == some "OK"),
    error_count := slice.countP (fun r => r.geocoding_status == none)
      + slice.countP (fun r => r.geocoding_status == some "ERROR"),
    calls := st.calls }

deriving instance DecidableEq for Except

/-- The typed failure of the range validation (the `ValueError`s of
lines 109-112). -/
inductive RunError where
  | rangeError
deriving DecidableEq, Repr

/-- The `end_row = None` default of lines 105-106. -/
def endRow (df : List Record) (eo : Option Int) : Int :=
  eo.getD (df.length : Int)

/-- Embedding of `process_station_data` (lines 83-217).  `start_row` and
`end_row` are Python ints, hence `Int`; `end_row = none` defaults to the
dataset length.  The range checks of lines 109-112 run before anything
else; all file I/O re-writes the in-memory dataframe and is not part of
the state. -/
def process_station_data (g : Option String → Option GeoResult)
    (df : List Record) (batch_size : Nat) (start_row : Int)
    (end_row : Option Int) : Except RunError RunResult :=
  if start_row < 0 ∨ start_row ≥ (df.length : Int) then .error .rangeError
  else if endRow df end_row ≤ start_row ∨ endRow df end_row > (df.length : Int) then
    .error .rangeError
  else .ok (runCore g df batch_size start_row.toNat (endRow df end_row).toNat)

/-- The dictionary returned by `check_file_status` on success
(lines 245-252).  `pending_rows` is a Python int difference and can be
negative; `completion_rate` is the percentage, a rational here. -/
structure FileStatus where
  total_rows : Nat
  completed_rows : Nat
  error_rows : Nat
  pending_rows : Int
  has_geocoding : Bool
  completion_rate : Rat
deriving DecidableEq, Repr

/-- A readable CSV file as `check_file_status` observes it: its rows plus
the presence of the `latitude`, `longitude` and `geocoding_status`
columns.  A field whose column is absent is `none` in every row. -/
structure CsvFile where
  rows : List Record
  hasLat : Bool
  hasLng : Bool
  hasStatus : Bool
deriving DecidableEq, Repr

/-- The rate of line 251: `completed / total * 100` guarded by
`total_rows > 0`. -/
def completionRate (completed total : Nat) : Rat :=
  if 0 < total then (completed : Rat) / (total : Rat) * 100 else 0

/-- Embedding of `check_file_status` (lines 219-255).  When the
coordinate columns exist but `geocoding_status` does not, the comparison
on line 238 raises `KeyError`, the blanket `except` catches it, and the
function returns `None`. -/
def check_file_status (f : CsvFile) : Option FileStatus :=
  let total := f.rows.length
  if f.hasLat && f.hasLng then
    if f.hasStatus then
      let completed := f.rows.countP (fun r => r.latitude.isSome && r.longitude.isSome)
      let errored := f.rows.countP (fun r => r.geocoding_status == some "ERROR")
      some { total_rows := total,
             completed_rows := completed,
             error_rows := errored,
             pending_rows := (total : Int) - completed - errored,
             has_geocoding := true,
             completion_rate := completionRate completed total }
    else none
  else
    some { total_rows := total, completed_rows := 0, error_rows := 0,
           pending_rows := (total : Int), has_geocoding := false,
           completion_rate := completionRate 0 total }

/-! ### Basic facts about the per-row functions -/

theorem applyOutcome_search (r : Record) (o : Option GeoResult) :
    (applyOutcome r o).search_address = r.search_address := by
  cases o <;> rfl

theorem applyOutcome_location (r : Record) (o : Option GeoResult) :
    (applyOutcome r o).location = r.location := by
  cases o <;> rfl

theorem applyOutcome_subdistrict (r : Record) (o : Option GeoResult) :
    (applyOutcome r o).subdistrict = r.subdistrict := by
  cases o <;> rfl

theorem applyOutcome_applyOutcome (r : Record) (o : Option GeoResult) :
    applyOutcome (applyOutcome r o) o = applyOutcome r o := by
  cases o <;> rfl

theorem fillSearch_search_ne_none (r : Record) (h : ¬ r.search_address = none) :
    fillSearch r = r := by
  simp [fillSearch, h]

theorem fillSearch_location (r : Record) : (fillSearch r).location = r.location := by
  unfold fillSearch; split <;> rfl

theorem fillSearch_subdistrict (r : Record) :
    (fillSearch r).subdistrict = r.subdistrict := by
  unfold fillSearch; split <;> rfl

theorem rowStep_search (g : Option String → Option GeoResult) (r : Record) :
    (rowStep g r).search_address = r.search_address := by
  unfold rowStep; split
  · rfl
  · rw [applyOutcome_search]

theorem rowStep_location (g : Option String → Option GeoResult) (r : Record) :
    (rowStep g r).location = r.location := by
  unfold rowStep; split
  · rfl
  · rw [applyOutcome_location]

theorem rowStep_subdistrict (g : Option String → Option GeoResult) (r : Record) :
    (rowStep g r).subdistrict = r.subdistrict := by
  unfold rowStep; split
  · rfl
  · rw [applyOutcome_subdistrict]

theorem fillSearch_eq_self_of (r : Record)
    (h : r.search_address = none → optConcat r.location r.subdistrict = none) :
    fillSearch r = r := by
  by_cases hs : r.search_address = none
  · unfold fillSearch
    rw [if_pos hs]
    calc ({ r with search_address := optConcat r.location r.subdistrict } : Record)
        = { r with search_address := r.search_address } := by rw [h hs, hs]
      _ = r := rfl
  · exact fillSearch_search_ne_none r hs

theorem fillSearch_none_opt (r : Record)
    (hs : (fillSearch r).search_address = none) :
    optConcat r.location r.subdistrict = none := by
  by_cases h0 : r.search_address = none
  · have hproj : (fillSearch r).search_address = optConcat r.location r.subdistrict := by
      unfold fillSearch; rw [if_pos h0]
    rw [hproj] at hs
    exact hs
  · rw [fillSearch_search_ne_none r h0] at hs
    exact absurd hs h0

theorem fillSearch_fillSearch (r : Record) : fillSearch (fillSearch r) = fillSearch r :=
  fillSearch_eq_self_of (fillSearch r) (fun hs => by
    rw [fillSearch_location, fillSearch_subdistrict]
    exact fillSearch_none_opt r hs)

theorem isComplete_fillSearch (r : Record) : isComplete (fillSearch r) = isComplete r := by
  unfold fillSearch; split <;> rfl

theorem rowStep_rowStep (g : Option String → Option GeoResult) (r : Record) :
    rowStep g (rowStep g r) = rowStep g r := by
  by_cases hc : isComplete r
  · simp [rowStep, hc]
  · by_cases hc2 : isComplete (applyOutcome r (g r.search_address))
    · simp [rowStep, hc, hc2]
    · simp [rowStep, hc, hc2, applyOutcome_search, applyOutcome_applyOutcome]

theorem fillSearch_rowStep (g : Option String → Option GeoResult) (r : Record) :
    fillSearch (rowStep g (fillSearch r)) = rowStep g (fillSearch r) :=
  fillSearch_eq_self_of (rowStep g (fillSearch r)) (fun hs => by
    rw [rowStep_location, rowStep_subdistrict, fillSearch_location, fillSearch_subdistrict]
    apply fillSearch_none_opt r
    rw [← rowStep_search g (fillSearch r)]
    exact hs)

/-! ### Characterization of the batch loop -/

/-- Whether the row at index `k` of `df` would be attempted (provider
called, counter bumped) when visited. -/
def incompleteAt (df : List Record) (k : Nat) : Bool :=
  match df[k]? with
  | some r => !(isComplete r)
  | none => false

theorem processRow_spec (g : Option String → Option GeoResult)
    (st : EngineState) (a : Nat) :
    (processRow g st a).df.length = st.df.length ∧
    (∀ k, k ≠ a → (processRow g st a).df[k]? = st.df[k]?) ∧
    (processRow g st a).df[a]? = (st.df[a]?).map (rowStep g) ∧
    (processRow g st a).processed
      = st.processed + (if incompleteAt st.df a then 1 else 0) ∧
    (processRow g st a).calls
      = st.calls + (if incompleteAt st.df a then 1 else 0) := by
  cases hr : st.df[a]? with
  | none =>
    simp [processRow, hr, incompleteAt]
  | some r =>
    have ha : a < st.df.length := (List.getElem?_eq_some.mp hr).1
    by_cases hc : isComplete r
    · simp [processRow, hr, hc, incompleteAt, rowStep]
    · refine ⟨?_, ?_, ?_, ?_, ?_⟩
      · simp [processRow, hr, hc]
      · intro k hk
        simp [processRow, hr, hc, List.getElem?_set_ne (Ne.symm hk)]
      · simp [processRow, hr, hc, List.getElem?_set_self ha, rowStep]
      · simp [processRow, hr, hc, incompleteAt]
      · simp [processRow, hr, hc, incompleteAt]

theorem runRows_spec (g : Option String → Option GeoResult) :
    ∀ (l : List Nat) (st : EngineState), l.Nodup →
      (runRows g st l).df.length = st.df.length ∧
      (∀ k, (runRows g st l).df[k]?
        = if k ∈ l then (st.df[k]?).map (rowStep g) else st.df[k]?) ∧
      (runRows g st l).processed = st.processed + l.countP (incompleteAt st.df) ∧
      (runRows g st l).calls = st.calls + l.countP (incompleteAt st.df) := by
  intro l
  induction l with
  | nil => intro st _; simp [runRows]
  | cons a t ih =>
    intro st hnd
    have hna : a ∉ t := (List.nodup_cons.mp hnd).1
    have hndt : t.Nodup := (List.nodup_cons.mp hnd).2
    obtain ⟨hlen1, hne1, heq1, hp1, hc1⟩ := processRow_spec g st a
    have hstep : runRows g st (a :: t) = runRows g (processRow g st a) t := by
      simp [runRows]
    obtain ⟨hlen2, hchar2, hp2, hc2⟩ := ih (processRow g st a) hndt
    have hinc : ∀ k ∈ t, incompleteAt (processRow g st a).df k = incompleteAt st.df k := by
      intro k hk
      have : k ≠ a := fun h => hna (h ▸ hk)
      simp [incompleteAt, hne1 k this]
    have hcount : t.countP (incompleteAt (processRow g st a).df)
        = t.countP (incompleteAt st.df) :=
      List.countP_congr (fun k hk => by simp [hinc k hk])
    refine ⟨?_, ?_, ?_, ?_⟩
    · rw [hstep, hlen2, hlen1]
    · intro k
      rw [hstep, hchar2 k]
      by_cases hkt : k ∈ t
      · have hka : k ≠ a := fun h => hna (h ▸ hkt)
        simp [hkt, hka, List.mem_cons, hne1 k hka]
      · by_cases hka : k = a
        · subst hka
          simp [hkt, heq1]
        · simp [hkt, hka, List.mem_cons, hne1 k hka]
    · rw [hstep, hp2, hcount, hp1, List.countP_cons]
      omega
    · rw [hstep, hc2, hcount, hc1, List.countP_cons]
      omega

theorem batchListAux_stop (f s e step : Nat) (h : ¬ s < e) :
    batchListAux f s e step = [] := by
  cases f <;> simp [batchListAux, h]

theorem runBatches_eq_runRows (g : Option String → Option GeoResult)
    (e step : Nat) (hstep : 0 < step) :
    ∀ (f s : Nat) (st : EngineState), e - s ≤ f →
      (batchListAux f s e step).foldl
        (fun acc p => runRows g acc (List.range' p.1 (p.2 - p.1))) st
      = runRows g st (List.range' s (e - s)) := by
  intro f
  induction f with
  | zero =>
    intro s st hf
    have : e - s = 0 := Nat.le_zero.mp hf
    simp [batchListAux, this, runRows]
  | succ f ih =>
    intro s st hf
    by_cases hse : s < e
    · rw [show batchListAux (f + 1) s e step
          = (s, min (s + step) e) :: batchListAux f (s + step) e step by
        simp [batchListAux, hse]]
      rw [List.foldl_cons]
      by_cases hfit : s + step ≤ e
      · have hmin : min (s + step) e = s + step := by omega
        rw [hmin, ih (s + step) _ (by omega)]
        show runRows g (runRows g st (List.range' s (s + step - s)))
            (List.range' (s + step) (e - (s + step))) = _
        rw [Nat.add_sub_cancel_left]
        simp only [runRows]
        rw [← List.foldl_append, List.range'_append_1 s step (e - (s + step))]
        congr 2
        omega
      · have hmin : min (s + step) e = e := by omega
        rw [hmin, batchListAux_stop f (s + step) e step (by omega)]
        show runRows g st (List.range' s (e - s)) = _
        rfl
    · rw [batchListAux_stop (f + 1) s e step hse]
      have : e - s = 0 := by omega
      simp [this, runRows]

theorem runCore_spec (g : Option String → Option GeoResult) (df : List Record)
    (bs s' e' : Nat) (hbs : 0 < bs) (hse : s' ≤ e') :
    (runCore g df bs s' e').df.length = df.length ∧
    (∀ k, (runCore g df bs s' e').df[k]?
      = if s' ≤ k ∧ k < e' then (df[k]?).map (fun r => rowStep g (fillSearch r))
        else (df[k]?).map fillSearch) ∧
    (runCore g df bs s' e').processed_count
      = (List.range' s' (e' - s')).countP (incompleteAt (df.map fillSearch)) ∧
    (runCore g df bs s' e').calls
      = (List.range' s' (e' - s')).countP (incompleteAt (df.map fillSearch)) := by
  have hrb : runBatches g { df := df.map fillSearch, processed := 0, calls := 0 } s' e' bs
      = runRows g { df := df.map fillSearch, processed := 0, calls := 0 }
          (List.range' s' (e' - s')) :=
    runBatches_eq_runRows g e' bs hbs (e' - s') s' _ (Nat.le_refl _)
  obtain ⟨hlen, hchar, hp, hc⟩ :=
    runRows_spec g (List.range' s' (e' - s'))
      { df := df.map fillSearch, processed := 0, calls := 0 }
      (List.nodup_range' s' (e' - s'))
  refine ⟨?_, ?_, ?_, ?_⟩
  · show (runBatches g _ s' e' bs).df.length = df.length
    rw [hrb, hlen]; simp
  · intro k
    show (runBatches g _ s' e' bs).df[k]? = _
    rw [hrb, hchar k]
    simp only [List.mem_range'_1]
    by_cases hin : s' ≤ k ∧ k < e'
    · rw [if_pos (show s' ≤ k ∧ k < s' + (e' - s') by omega), if_pos hin,
        List.getElem?_map, Option.map_map]
      rfl
    · rw [if_neg (show ¬ (s' ≤ k ∧ k < s' + (e' - s')) by omega), if_neg hin,
        List.getElem?_map]
  · show (runBatches g _ s' e' bs).processed = _
    rw [hrb, hp]
    simp
  · show (runBatches g _ s' e' bs).calls = _
    rw [hrb, hc]
    simp

theorem process_ok (g : Option String → Option GeoResult) (df : List Record)
    (bs : Nat) (s : Int) (eo : Option Int) (res : RunResult)
    (h : process_station_data g df bs s eo = .ok res) :
    0 ≤ s ∧ s < (df.length : Int) ∧ s < endRow df eo ∧
      endRow df eo ≤ (df.length : Int) ∧
      res = runCore g df bs s.toNat (endRow df eo).toNat := by
  unfold process_station_data at h
  split at h
  · cases h
  · split at h
    · cases h
    · refine ⟨by omega, by omega, by omega, by omega, ?_⟩
      cases h
      rfl

/-! ### Concrete providers and rows used in scenarios and witnesses -/

/-- A provider whose every call fails in transport
(`geocode_address` returns `None`). -/
def gErr : Option String → Option GeoResult := fun _ => none

/-- A fixed successful provider dictionary with status `'OK'`. -/
def gOkRes : GeoResult :=
  { formatted_address := some "A", latitude := some 1, longitude := some 2,
    place_id := some "P", types := some ["t1", "t2"], status := "OK" }

/-- A provider whose every call succeeds with `gOkRes`. -/
def gOk : Option String → Option GeoResult := fun _ => some gOkRes

/-- A complete row: coordinates present, status `'OK'`,
`search_address` present. -/
def cRec : Record :=
  { location := some "L", subdistrict := some "S", search_address := some "L S",
    formatted_address := some "F", latitude := some 10, longitude := some 20,
    place_id := some "Q", geocoding_status := some "OK", geocoding_types := some "x" }

/-- A pending row: no geocoding data yet, `search_address` present. -/
def pRec : Record :=
  { location := some "L", subdistrict := some "S", search_address := some "L S",
    formatted_address := none, latitude := none, longitude := none,
    place_id := none, geocoding_status := none, geocoding_types := none }

/-- The row `pRec` after a successful `gOk` lookup is applied. -/
def qRec : Record :=
  { location := some "L", subdistrict := some "S", search_address := some "L S",
    formatted_address := some "A", latitude := some 1, longitude := some 2,
    place_id := some "P", geocoding_status := some "OK",
    geocoding_types := some "t1, t2" }

/-- A pending row whose `search_address` is still null. -/
def rOut : Record :=
  { location := some "x", subdistrict := some "y", search_address := none,
    formatted_address := none, latitude := none, longitude := none,
    place_id := none, geocoding_status := none, geocoding_types := none }

/-- A complete row (coordinates present, status `'OK'`) whose
`search_address` is still null. -/
def cNS : Record :=
  { location := some "a", subdistrict := some "b", search_address := none,
    formatted_address := none, latitude := some 1, longitude := some 2,
    place_id := none, geocoding_status := some "OK", geocoding_types := none }

/-- The 12-row dataset of the batching scenario: rows 0-1 complete,
rows 2-11 pending. -/
def dfC5 : List Record := [cRec, cRec] ++ List.replicate 10 pRec

/-- The expected dataset after running the batching scenario with
provider `gOk`. -/
def dfC5out : List Record := [cRec, cRec] ++ List.replicate 10 qRec

/-- A file whose single row has both coordinates and status `'ERROR'`,
with all three geocoding columns present. -/
def fC10 : CsvFile :=
  { rows := [{ location := some "L", subdistrict := some "S",
               search_address := some "L S", formatted_address := some "F",
               latitude := some 1, longitude := some 2, place_id := some "P",
               geocoding_status := some "ERROR", geocoding_types := none }],
    hasLat := true, hasLng := true, hasStatus := true }

/-- A row with both coordinates present and a null status. -/
def rCC : Record :=
  { location := some "L", subdistrict := some "S", search_address := some "L S",
    formatted_address := some "F", latitude := some 1, longitude := some 2,
    place_id := some "P", geocoding_status := none, geocoding_types := none }

/-- A file with coordinate columns but no `geocoding_status` column. -/
def fNoStatus : CsvFile :=
  { rows := [rCC], hasLat := true, hasLng := true, hasStatus := false }

/-! ### Claim theorems -/

/-- C1, counterexample: the claim that no field of any out-of-range row is
written is false.  With range `[0, 1)` over a two-row dataset, the run
fills the null `search_address` of out-of-range row 1 with
`location + " " + subdistrict` (lines 121-126 operate on the whole
dataframe), so row 1's field contents change. -/
theorem C1_counterexample :
    process_station_data gErr [cRec, rOut] 10 0 (some 1)
      = .ok { df := [cRec, { rOut with search_address := some "x y" }],
              processed_count := 0, success_count := 1, error_count := 0,
              calls := 0 } ∧
    ({ rOut with search_address := some "x y" } : Record) ≠ rOut := by
  decide

/-- C1, amended: after a successful run, every row at an index outside
`[start_row, end_row)` equals `fillSearch` of its old value — all fields
are unchanged except that a null `search_address` is filled by the
pre-loop derivation of lines 121-126; in particular any out-of-range row
whose `search_address` was already non-null is fully unchanged. -/
theorem C1_frame (g : Option String → Option GeoResult) (df : List Record)
    (bs : Nat) (s : Int) (eo : Option Int) (res : RunResult) (k : Nat) (r : Record)
    (hbs : 0 < bs)
    (h : process_station_data g df bs s eo = .ok res)
    (hout : ¬ (s ≤ (k : Int) ∧ (k : Int) < endRow df eo))
    (hr : df[k]? = some r) :
    res.df[k]? = some (fillSearch r) ∧
    (r.search_address ≠ none → res.df[k]? = some r) := by
  obtain ⟨hs0, hsn, hse, hen, hres⟩ := process_ok g df bs s eo res h
  obtain ⟨-, hchar, -, -⟩ :=
    runCore_spec g df bs s.toNat (endRow df eo).toNat hbs (by omega)
  subst hres
  have hknat : ¬ (s.toNat ≤ k ∧ k < (endRow df eo).toNat) := by omega
  constructor
  · rw [hchar k, if_neg hknat, hr]
    rfl
  · intro hsa
    rw [hchar k, if_neg hknat, hr]
    show some (fillSearch r) = some r
    rw [fillSearch_search_ne_none r hsa]

/-- Witness for C1_frame at a concrete out-of-range index. -/
theorem C1_frame_witness :
    (runCore gErr [cRec, cRec] 10 (0 : Int).toNat (endRow [cRec, cRec] (some 1)).toNat).df[1]?
      = some (fillSearch cRec) ∧
    (cRec.search_address ≠ none →
      (runCore gErr [cRec, cRec] 10 (0 : Int).toNat
          (endRow [cRec, cRec] (some 1)).toNat).df[1]? = some cRec) :=
  C1_frame gErr [cRec, cRec] 10 0 (some 1) _ 1 cRec (by decide) rfl (by decide) (by decide)

/-- C2: for any of the four invalid-range conditions of lines 109-112,
`process_station_data` fails with the range error before doing anything:
the result is `RangeError` for every provider `g`, so no lookup is made
and no dataset is produced (the file on disk is untouched, since the
first write in the source comes after validation). -/
theorem C2_range_error (g : Option String → Option GeoResult) (df : List Record)
    (bs : Nat) (s e : Int)
    (h : s < 0 ∨ s ≥ (df.length : Int) ∨ e ≤ s ∨ e > (df.length : Int)) :
    process_station_data g df bs s (some e) = .error .rangeError := by
  unfold process_station_data
  split
  · rfl
  · rename_i h1
    have hcond : endRow df (some e) ≤ s ∨ endRow df (some e) > (df.length : Int) := by
      unfold endRow
      simp only [Option.getD_some]
      omega
    rw [if_pos hcond]

/-- Witness for C2_range_error with `end_row = start_row = 0`. -/
theorem C2_range_error_witness :
    process_station_data gErr [pRec] 10 0 (some 0) = .error .rangeError :=
  C2_range_error gErr [pRec] 10 0 0 (by decide)

/-- C3, counterexample: the claim that a complete in-range record is left
with all its fields unchanged is false.  A complete row whose
`search_address` is null is skipped by the loop (no provider call, not
counted), yet the run writes its `search_address`. -/
theorem C3_counterexample :
    isComplete cNS = true ∧
    process_station_data gErr [cNS] 10 0 (some 1)
      = .ok { df := [{ cNS with search_address := some "a b" }],
              processed_count := 0, success_count := 1, error_count := 0,
              calls := 0 } ∧
    ({ cNS with search_address := some "a b" } : Record) ≠ cNS := by
  decide

/-- C3, amended: within the range, a complete record (latitude and
longitude non-null and status not `'ERROR'`) is skipped — left unchanged
except for the `search_address` derivation — while every incomplete
record has the provider outcome for its (derived) `search_address`
applied; `processed_count` equals the number of provider calls and counts
exactly the in-range rows that were incomplete when visited. -/
theorem C3_skip_iff (g : Option String → Option GeoResult) (df : List Record)
    (bs : Nat) (s : Int) (eo : Option Int) (res : RunResult) (k : Nat) (r : Record)
    (hbs : 0 < bs)
    (h : process_station_data g df bs s eo = .ok res)
    (hin : s ≤ (k : Int) ∧ (k : Int) < endRow df eo)
    (hr : df[k]? = some r) :
    (isComplete r = true → res.df[k]? = some (fillSearch r)) ∧
    (isComplete r = false →
      res.df[k]? = some (applyOutcome (fillSearch r) (g (fillSearch r).search_address))) ∧
    res.processed_count = res.calls ∧
    res.processed_count
      = (List.range' s.toNat ((endRow df eo).toNat - s.toNat)).countP
          (incompleteAt (df.map fillSearch)) := by
  obtain ⟨hs0, hsn, hse, hen, hres⟩ := process_ok g df bs s eo res h
  obtain ⟨-, hchar, hp, hc⟩ :=
    runCore_spec g df bs s.toNat (endRow df eo).toNat hbs (by omega)
  subst hres
  have hknat : s.toNat ≤ k ∧ k < (endRow df eo).toNat := by omega
  refine ⟨?_, ?_, ?_, ?_⟩
  · intro hcomp
    rw [hchar k, if_pos hknat, hr]
    show some (rowStep g (fillSearch r)) = some (fillSearch r)
    rw [rowStep, isComplete_fillSearch, hcomp, if_pos rfl]
  · intro hcomp
    rw [hchar k, if_pos hknat, hr]
    show some (rowStep g (fillSearch r)) = _
    rw [rowStep, isComplete_fillSearch, hcomp]
    rfl
  · rw [hp, hc]
  · exact hp

/-- Witness for C3_skip_iff at a concrete in-range pending row. -/
theorem C3_skip_iff_witness :
    (isComplete pRec = true →
      (runCore gErr [pRec] 10 (0 : Int).toNat (endRow [pRec] (some 1)).toNat).df[0]?
        = some (fillSearch pRec)) ∧
    (isComplete pRec = false →
      (runCore gErr [pRec] 10 (0 : Int).toNat (endRow [pRec] (some 1)).toNat).df[0]?
        = some (applyOutcome (fillSearch pRec) (gErr (fillSearch pRec).search_address))) ∧
    (runCore gErr [pRec] 10 (0 : Int).toNat (endRow [pRec] (some 1)).toNat).processed_count
      = (runCore gErr [pRec] 10 (0 : Int).toNat (endRow [pRec] (some 1)).toNat).calls ∧
    (runCore gErr [pRec] 10 (0 : Int).toNat (endRow [pRec] (some 1)).toNat).processed_count
      = (List.range' (0 : Int).toNat ((endRow [pRec] (some 1)).toNat - (0 : Int).toNat)).countP
          (incompleteAt ([pRec].map fillSearch)) :=
  C3_skip_iff gErr [pRec] 10 0 (some 1) _ 0 pRec (by decide) rfl (by decide) (by decide)

/-- C4: a transport error (`geocode_address` returning `None`) makes
`apply` set `geocoding_status` to the sentinel `'ERROR'` and leave every
other field — including prior partial data — untouched; the resulting
record is incomplete, so a subsequent run attempts it again. -/
theorem C4_transport_error (r : Record) :
    geocode_address ApiResponse.failure = none ∧
    (applyOutcome r none).geocoding_status = some "ERROR" ∧
    (applyOutcome r none).formatted_address = r.formatted_address ∧
    (applyOutcome r none).latitude = r.latitude ∧
    (applyOutcome r none).longitude = r.longitude ∧
    (applyOutcome r none).place_id = r.place_id ∧
    (applyOutcome r none).geocoding_types = r.geocoding_types ∧
    (applyOutcome r none).search_address = r.search_address ∧
    isComplete (applyOutcome r none) = false := by
  refine ⟨rfl, rfl, rfl, rfl, rfl, rfl, rfl, rfl, ?_⟩
  simp [isComplete, applyOutcome]

/-- C5: on the 12-row dataset with rows 0-1 complete and `batchSize = 5`,
a run over `[0, 12)` partitions the range into exactly the three batches
`[0,5)`, `[5,10)`, `[10,12)` of sizes 5, 5, 2, skips rows 0-1, processes
rows 2-11 (10 provider calls, `processed = 10`), leaving rows 0-1
unchanged and rows 2-11 filled with the provider result. -/
theorem C5_batch_scenario :
    process_station_data gOk dfC5 5 0 (some 12)
      = .ok { df := dfC5out, processed_count := 10, success_count := 12,
              error_count := 0, calls := 10 } ∧
    batchList 0 12 5 = [(0, 5), (5, 10), (10, 12)] ∧
    (batchList 0 12 5).map (fun p => p.2 - p.1) = [5, 5, 2] := by
  decide

/-- C6: the run summary of lines 207-217 is computed over exactly the
rows `df.iloc[start_row:end_row]` of the final dataset: `succeeded`
counts status `'OK'`, `errored` counts null statuses plus `'ERROR'`
statuses, and `processed_count` equals the number of provider calls made
(each attempted row contributes one call and one count; skipped rows
contribute neither). -/
theorem C6_summary (g : Option String → Option GeoResult) (df : List Record)
    (bs : Nat) (s : Int) (eo : Option Int) (res : RunResult)
    (hbs : 0 < bs)
    (h : process_station_data g df bs s eo = .ok res) :
    res.success_count
      = ((res.df.drop s.toNat).take ((endRow df eo).toNat - s.toNat)).countP
          (fun r => r.geocoding_status == some "OK") ∧
    res.error_count
      = ((res.df.drop s.toNat).take ((endRow df eo).toNat - s.toNat)).countP
          (fun r => r.geocoding_status == none)
        + ((res.df.drop s.toNat).take ((endRow df eo).toNat - s.toNat)).countP
          (fun r => r.geocoding_status == some "ERROR") ∧
    res.processed_count = res.calls := by
  obtain ⟨hs0, hsn, hse, hen, hres⟩ := process_ok g df bs s eo res h
  obtain ⟨-, -, hp, hc⟩ :=
    runCore_spec g df bs s.toNat (endRow df eo).toNat hbs (by omega)
  subst hres
  refine ⟨rfl, rfl, ?_⟩
  rw [hp, hc]

/-- Witness for C6_summary on a one-row run. -/
theorem C6_summary_witness :
    (runCore gErr [pRec] 10 (0 : Int).toNat (endRow [pRec] (some 1)).toNat).success_count
      = (((runCore gErr [pRec] 10 (0 : Int).toNat (endRow [pRec] (some 1)).toNat).df.drop
            (0 : Int).toNat).take ((endRow [pRec] (some 1)).toNat - (0 : Int).toNat)).countP
          (fun r => r.geocoding_status == some "OK") ∧
    (runCore gErr [pRec] 10 (0 : Int).toNat (endRow [pRec] (some 1)).toNat).error_count
      = (((runCore gErr [pRec] 10 (0 : Int).toNat (endRow [pRec] (some 1)).toNat).df.drop
            (0 : Int).toNat).take ((endRow [pRec] (some 1)).toNat - (0 : Int).toNat)).countP
          (fun r => r.geocoding_status == none)
        + (((runCore gErr [pRec] 10 (0 : Int).toNat (endRow [pRec] (some 1)).toNat).df.drop
            (0 : Int).toNat).take ((endRow [pRec] (some 1)).toNat - (0 : Int).toNat)).countP
          (fun r => r.geocoding_status == some "ERROR") ∧
    (runCore gErr [pRec] 10 (0 : Int).toNat (endRow [pRec] (some 1)).toNat).processed_count
      = (runCore gErr [pRec] 10 (0 : Int).toNat (endRow [pRec] (some 1)).toNat).calls :=
  C6_summary gErr [pRec] 10 0 (some 1) _ (by decide) rfl

/-- C7: with a fixed pure provider, a second run over the same range on
the dataset produced by a first successful run leaves the dataset exactly
as the first run left it. -/
theorem C7_idempotent (g : Option String → Option GeoResult) (df : List Record)
    (bs : Nat) (s : Int) (eo : Option Int) (res1 res2 : RunResult)
    (hbs : 0 < bs)
    (h1 : process_station_data g df bs s eo = .ok res1)
    (h2 : process_station_data g res1.df bs s eo = .ok res2) :
    res2.df = res1.df := by
  obtain ⟨hs0, hsn1, hse1, hen1, hres1⟩ := process_ok g df bs s eo res1 h1
  obtain ⟨hlen1, hchar1, -, -⟩ :=
    runCore_spec g df bs s.toNat (endRow df eo).toNat hbs (by omega)
  have hdflen : res1.df.length = df.length := by rw [hres1]; exact hlen1
  have hend : endRow res1.df eo = endRow df eo := by
    unfold endRow; cases eo <;> simp [hdflen]
  obtain ⟨hs0b, hsn2, hse2, hen2, hres2⟩ := process_ok g res1.df bs s eo res2 h2
  obtain ⟨hlen2, hchar2, -, -⟩ :=
    runCore_spec g res1.df bs s.toNat (endRow res1.df eo).toNat hbs (by omega)
  apply List.ext_getElem?
  intro k
  rw [hres2, hchar2 k, hend]
  have h1k : res1.df[k]? = if s.toNat ≤ k ∧ k < (endRow df eo).toNat
      then (df[k]?).map (fun r => rowStep g (fillSearch r))
      else (df[k]?).map fillSearch := by
    rw [hres1]; exact hchar1 k
  by_cases hin : s.toNat ≤ k ∧ k < (endRow df eo).toNat
  · rw [if_pos hin, h1k, if_pos hin]
    cases hr : df[k]? with
    | none => rfl
    | some r0 =>
      show some (rowStep g (fillSearch (rowStep g (fillSearch r0))))
        = some (rowStep g (fillSearch r0))
      rw [fillSearch_rowStep, rowStep_rowStep]
  · rw [if_neg hin, h1k, if_neg hin]
    cases hr : df[k]? with
    | none => rfl
    | some r0 =>
      show some (fillSearch (fillSearch r0)) = some (fillSearch r0)
      rw [fillSearch_fillSearch]

/-- Witness for C7_idempotent: two consecutive failing-provider runs. -/
theorem C7_idempotent_witness :
    (runCore gErr (runCore gErr [pRec] 10 0 1).df 10 0 1).df
      = (runCore gErr [pRec] 10 0 1).df :=
  C7_idempotent gErr [pRec] 10 0 (some 1) (runCore gErr [pRec] 10 0 1)
    (runCore gErr (runCore gErr [pRec] 10 0 1).df 10 0 1)
    (by decide) (by decide) (by decide)

theorem fillSearch_latitude (r : Record) : (fillSearch r).latitude = r.latitude := by
  unfold fillSearch; split <;> rfl

theorem fillSearch_longitude (r : Record) : (fillSearch r).longitude = r.longitude := by
  unfold fillSearch; split <;> rfl

theorem geocode_address_pair (resp : ApiResponse) (gr : GeoResult)
    (h : geocode_address resp = some gr) :
    gr.latitude.isSome = gr.longitude.isSome := by
  cases resp with
  | failure => exact absurd h (by simp [geocode_address])
  | success status results =>
    cases results with
    | nil =>
      simp only [geocode_address, Option.some.injEq] at h
      rw [← h]
    | cons r rs =>
      simp only [geocode_address] at h
      by_cases hok : status = "OK"
      · rw [if_pos hok] at h
        simp only [Option.some.injEq] at h
        rw [← h]
        rfl
      · rw [if_neg hok] at h
        simp only [Option.some.injEq] at h
        rw [← h]

theorem rowStep_pair (g : Option String → Option GeoResult)
    (hgp : ∀ a gr, g a = some gr → gr.latitude.isSome = gr.longitude.isSome)
    (r : Record) (hp : r.latitude.isSome = r.longitude.isSome) :
    (rowStep g r).latitude.isSome = (rowStep g r).longitude.isSome := by
  unfold rowStep
  split
  · exact hp
  · cases hg : g r.search_address with
    | none => exact hp
    | some gr => exact hgp r.search_address gr hg

/-- C8: a run driven by the real geocode client keeps the pairing
invariant `(latitude is null) == (longitude is null)`: `geocode_address`
either yields both coordinates or neither, and the transport-error branch
leaves both unchanged. -/
theorem C8_coord_pairing (net : Option String → ApiResponse) (df : List Record)
    (bs : Nat) (s : Int) (eo : Option Int) (res : RunResult)
    (hbs : 0 < bs)
    (h : process_station_data (fun a => geocode_address (net a)) df bs s eo = .ok res)
    (hinv : df.all (fun r => r.latitude.isSome == r.longitude.isSome) = true) :
    res.df.all (fun r => r.latitude.isSome == r.longitude.isSome) = true := by
  obtain ⟨hs0, hsn, hse, hen, hres⟩ := process_ok _ df bs s eo res h
  obtain ⟨-, hchar, -, -⟩ :=
    runCore_spec (fun a => geocode_address (net a)) df bs s.toNat
      (endRow df eo).toNat hbs (by omega)
  subst hres
  rw [List.all_eq_true] at hinv ⊢
  have hpair : ∀ r0 : Record, r0 ∈ df → r0.latitude.isSome = r0.longitude.isSome := by
    intro r0 hr0
    simpa using hinv r0 hr0
  intro x hx
  simp only [beq_iff_eq]
  obtain ⟨k, hk⟩ := List.mem_iff_getElem?.mp hx
  rw [hchar k] at hk
  by_cases hin : s.toNat ≤ k ∧ k < (endRow df eo).toNat
  · rw [if_pos hin] at hk
    cases hr : df[k]? with
    | none => rw [hr] at hk; cases hk
    | some r0 =>
      rw [hr] at hk
      have hx0 : rowStep (fun a => geocode_address (net a)) (fillSearch r0) = x :=
        Option.some.inj hk
      rw [← hx0]
      apply rowStep_pair
      · intro a gr hg
        exact geocode_address_pair (net a) gr hg
      · rw [fillSearch_latitude, fillSearch_longitude]
        exact hpair r0 (List.getElem?_mem hr)
  · rw [if_neg hin] at hk
    cases hr : df[k]? with
    | none => rw [hr] at hk; cases hk
    | some r0 =>
      rw [hr] at hk
      have hx0 : fillSearch r0 = x := Option.some.inj hk
      rw [← hx0, fillSearch_latitude, fillSearch_longitude]
      exact hpair r0 (List.getElem?_mem hr)

/-- A network on which every call fails in transport. -/
def net0 : Option String → ApiResponse := fun _ => ApiResponse.failure

/-- Witness for C8_coord_pairing on a one-row run. -/
theorem C8_coord_pairing_witness :
    (runCore (fun a => geocode_address (net0 a)) [pRec] 10 0 1).df.all
      (fun r => r.latitude.isSome == r.longitude.isSome) = true :=
  C8_coord_pairing net0 [pRec] 10 0 (some 1) _ (by decide) (by decide) (by decide)

/-- C9, counterexample: the claimed formulas do not hold for every file
with coordinate columns.  On a file that has `latitude`/`longitude`
columns but no `geocoding_status` column, `check_file_status` hits a
`KeyError` on line 238 and returns `None`, not the FileStatus the claim
predicts (completed 1, errored 0, pending 0, rate 100). -/
theorem C9_counterexample :
    check_file_status fNoStatus = none ∧
    check_file_status fNoStatus
      ≠ some { total_rows := 1, completed_rows := 1, error_rows := 0,
               pending_rows := 0, has_geocoding := true,
               completion_rate := 100 } := by
  decide

/-- C9, amended: with neither coordinate column, `inspect` reports
`hasGeocoding = false`, zero completed and errored, everything pending,
rate 0 (whatever the status column); with the coordinate columns *and*
the `geocoding_status` column, it reports `completed` = rows with both
coordinates non-null, `errored` = rows with status exactly `'ERROR'`,
`pending = total - completed - errored`, and a rate that is 0 when the
file is empty (never a division by zero); with coordinate columns but no
status column it fails and returns `None`. -/
theorem C9_inspect (rows : List Record) (b : Bool) :
    check_file_status { rows := rows, hasLat := false, hasLng := false, hasStatus := b }
      = some { total_rows := rows.length, completed_rows := 0, error_rows := 0,
               pending_rows := (rows.length : Int), has_geocoding := false,
               completion_rate := 0 } ∧
    check_file_status { rows := rows, hasLat := true, hasLng := true, hasStatus := false }
      = none ∧
    check_file_status { rows := rows, hasLat := true, hasLng := true, hasStatus := true }
      = some { total_rows := rows.length,
               completed_rows :=
                 rows.countP (fun r => r.latitude.isSome && r.longitude.isSome),
               error_rows :=
                 rows.countP (fun r => r.geocoding_status == some "ERROR"),
               pending_rows := (rows.length : Int)
                 - rows.countP (fun r => r.latitude.isSome && r.longitude.isSome)
                 - rows.countP (fun r => r.geocoding_status == some "ERROR"),
               has_geocoding := true,
               completion_rate :=
                 if rows.length = 0 then 0
                 else (rows.countP (fun r => r.latitude.isSome && r.longitude.isSome) : Rat)
                   / (rows.length : Rat) * 100 } := by
  refine ⟨?_, rfl, ?_⟩
  · simp [check_file_status, completionRate]
  · by_cases hlen : rows.length = 0
    · simp [check_file_status, completionRate, hlen]
    · simp [check_file_status, completionRate, hlen, Nat.pos_of_ne_zero hlen]

/-- C10: a row with both coordinates non-null *and* status `'ERROR'` is
counted both in `completed_rows` and in `error_rows` (lines 237-238), so
on a one-row file of that shape `completed + errored = 2 > 1 = total` and
the returned `pending_rows` is negative. -/
theorem C10_double_count :
    check_file_status fC10
      = some { total_rows := 1, completed_rows := 1, error_rows := 1,
               pending_rows := -1, has_geocoding := true,
               completion_rate := 100 } := by
  have hrate : completionRate 1 1 = 100 := by
    unfold completionRate
    norm_num
  have h0 : check_file_status fC10
      = some { total_rows := 1, completed_rows := 1, error_rows := 1,
               pending_rows := -1, has_geocoding := true,
               completion_rate := completionRate 1 1 } := rfl
  rw [h0, hrate]

end Station66
